import Mathlib

/-!
# Clipia — verification of the media pipeline frontend and spec-modelled backend

Shallow embedding of the Clipia repository's JavaScript frontend modules
(`static/js/video_trimming.js`, `static/js/file_upload.js`,
`static/js/tab_navigation.js`) and, where the backend is absent from the
repository sources, of the Asset Store / Trim Engine contracts described in the
specification.

Conventions:
* `parseFloat` results are modelled as `Option ℚ`, with `none` standing for
  JavaScript `NaN` (every comparison against `none` is false, as for `NaN`).
* Nullable DOM/JSON string fields are `Option String`; JavaScript truthiness of
  a string value holds when it is present and non-empty.
* A fetch promise chain's result is a `FetchOutcome`: an `ok` response carrying
  the parsed JSON fields, a non-ok HTTP response (whose JSON error body may
  carry a message), or a network error rejecting the promise.
-/

namespace Clipia

/-- JavaScript number obtained from `parseFloat`: `none` models `NaN`. -/
abbrev JSNum := Option ℚ

/-- JavaScript truthiness of a nullable string (`null` and `""` are falsy). -/
def jsTruthyStr : Option String → Bool
  | none => false
  | some s => s != ""

/-- `classList.add`: appends the token unless already present (DOMTokenList is set-like). -/
def classAdd (l : List String) (c : String) : List String :=
  if c ∈ l then l else l ++ [c]

/-- `classList.remove`: removes every occurrence of the token. -/
def classRemove (l : List String) (c : String) : List String :=
  l.filter (fun a => a ≠ c)

/-- State of a `<button>` element: its class list, `disabled` flag and label text. -/
structure ButtonState where
  classes : List String
  disabled : Bool
  textContent : String
deriving DecidableEq, Repr

/-! ## video_trimming.js -/

/-- Mutable state visible to `initializeVideoTrimming`'s click handler:
the closure variable `currentVideoFilename`, the preview `<video>` element's
`src`, the preview area's class list and the trim button. -/
structure TrimState where
  currentVideoFilename : Option String
  videoSrc : String
  previewClasses : List String
  trimButton : ButtonState
deriving DecidableEq, Repr

/-- The JSON body sent to `/trim_video`. -/
structure TrimRequest where
  filename : String
  start_time : ℚ
  end_time : ℚ
deriving DecidableEq, Repr

/-- Result of the synchronous part of the trim click handler: either an early
return after an `alert` (no fetch issued, state carried unchanged), or a
`fetch('/trim_video', ...)` with the given payload from the given state. -/
inductive TrimClickOutcome where
  | blocked (alertMessage : String) (st : TrimState)
  | fetch (payload : TrimRequest) (st : TrimState)
deriving DecidableEq, Repr

/-- Loading state set just before the fetch: add class `loading`, disable the
button, set its text to `Trimming...` (video_trimming.js lines 70-72). -/
def trimSetLoading (st : TrimState) : TrimState :=
  { st with trimButton := { classes := classAdd st.trimButton.classes "loading",
                            disabled := true,
                            textContent := "Trimming..." } }

/-- The trim button click handler up to the fetch call
(video_trimming.js lines 38-82):
guard on `!currentVideoFilename`, then `isNaN(startTime) || isNaN(endTime) ||
startTime < 0 || endTime < 0`, then `startTime >= endTime`, else build
`trimData` and issue the fetch in loading state. The `Option ℚ` match realises
the `isNaN` checks; when a time is `NaN` all the `<`/`>=` comparisons are false,
so the match branches are in the source's short-circuit order. -/
def trimClick (st : TrimState) (startTime endTime : JSNum) : TrimClickOutcome :=
  match st.currentVideoFilename with
  | none => .blocked "Please upload a video first." st
  | some fn =>
    if fn = "" then .blocked "Please upload a video first." st
    else
      match startTime, endTime with
      | some s, some e =>
        if s < 0 ∨ e < 0 then
          .blocked "Please enter valid positive numbers for start and end times." st
        else if e ≤ s then
          .blocked "Start time must be less than end time." st
        else
          .fetch { filename := fn, start_time := s, end_time := e } (trimSetLoading st)
      | _, _ =>
        .blocked "Please enter valid positive numbers for start and end times." st

/-- Settled result of a fetch promise chain, as seen by the `.then`/`.catch`
handlers: an ok response with parsed JSON fields (`success`, the filename field,
`message`), a non-ok HTTP response, or a network error. -/
inductive FetchOutcome where
  | ok (success : Bool) (filenameField : Option String) (message : Option String)
  | httpError (message : Option String)
  | networkError
deriving DecidableEq, Repr

/-- A settled outcome counts as a successful trim/upload exactly when the
response is ok with `success:true` and a truthy filename field. -/
def isFetchSuccess : FetchOutcome → Bool
  | .ok true (some fn) _ => fn != ""
  | _ => false

/-- The `.finally` block of the trim fetch (video_trimming.js lines 114-119):
remove class `loading`, re-enable the button, reset its text. -/
def trimFinally (st : TrimState) : TrimState :=
  { st with trimButton := { classes := classRemove st.trimButton.classes "loading",
                            disabled := false,
                            textContent := "Trim Video" } }

/-- The trim fetch handlers from settlement to the end of `.finally`
(video_trimming.js lines 83-119): on an ok response with
`data.success && data.trimmed_filename` truthy, update `currentVideoFilename`,
set the preview `src` to `/get_video/<trimmed_filename>` and mark the preview
area active; every other path (non-ok response, network error, `success:false`,
missing or empty `trimmed_filename`) only alerts/logs; then `.finally` resets
the button. -/
def trimSettle (st : TrimState) (o : FetchOutcome) : TrimState :=
  trimFinally <|
    match o with
    | .ok true (some fn) _ =>
      if fn = "" then st
      else { st with currentVideoFilename := some fn,
                     videoSrc := "/get_video/" ++ fn,
                     previewClasses := classAdd st.previewClasses "active" }
    | _ => st

/-- One whole trim-button operation: the click handler, and — when a fetch was
issued — the settlement of its promise chain with outcome `o`. -/
def trimOperation (st : TrimState) (startTime endTime : JSNum) (o : FetchOutcome) : TrimState :=
  match trimClick st startTime endTime with
  | .blocked _ st' => st'
  | .fetch _ st' => trimSettle st' o

/-! ## file_upload.js -/

/-- Mutable state visible to `initializeFileUpload`'s upload handlers, together
with the trim controls' `disabled` flags that `initializeVideoTrimming`
(called on upload success) sets. -/
structure UploadState where
  currentVideoFilename : Option String
  videoSrc : String
  previewClasses : List String
  uploadButton : ButtonState
  startSecondDisabled : Bool
  endSecondDisabled : Bool
  trimButtonDisabled : Bool
deriving DecidableEq, Repr

/-- The enable/disable branch at the top of `initializeVideoTrimming`
(video_trimming.js lines 24-35), acting on the trim controls' flags: enabled
when the provided filename is truthy, disabled otherwise. -/
def initializeVideoTrimmingCtrls (fn : Option String) (st : UploadState) : UploadState :=
  if jsTruthyStr fn then
    { st with startSecondDisabled := false, endSecondDisabled := false,
              trimButtonDisabled := false }
  else
    { st with startSecondDisabled := true, endSecondDisabled := true,
              trimButtonDisabled := true }

/-- The `.finally` block of the upload fetch (file_upload.js lines 114-122). -/
def uploadFinally (st : UploadState) : UploadState :=
  { st with uploadButton := { classes := classRemove st.uploadButton.classes "loading",
                              disabled := false,
                              textContent := "Upload Video" } }

/-- The upload fetch handlers from settlement to the end of `.finally`
(file_upload.js lines 78-122): on an ok response with
`data.success && data.filename` truthy, store the filename, set the preview
`src` to `/get_video/<filename>`, mark the preview area active and call
`initializeVideoTrimming(currentVideoFilename)`; every other path only
alerts/logs; then `.finally` resets the button. -/
def uploadSettle (st : UploadState) (o : FetchOutcome) : UploadState :=
  uploadFinally <|
    match o with
    | .ok true (some fn) _ =>
      if fn = "" then st
      else
        initializeVideoTrimmingCtrls (some fn)
          { st with currentVideoFilename := some fn,
                    videoSrc := "/get_video/" ++ fn,
                    previewClasses := classAdd st.previewClasses "active" }
    | _ => st

/-! Sample concrete states used by witnesses and counterexamples. -/

/-- A trim-module state with a video already in the workspace. -/
def exTrimSt : TrimState :=
  { currentVideoFilename := some "v.mp4", videoSrc := "/get_video/v.mp4",
    previewClasses := ["active"],
    trimButton := { classes := [], disabled := false, textContent := "Trim Video" } }

/-- A trim-module state before any upload (`currentVideoFilename = null`). -/
def exTrimStNoFile : TrimState :=
  { currentVideoFilename := none, videoSrc := "", previewClasses := [],
    trimButton := { classes := [], disabled := true, textContent := "Trim Video" } }

/-- An upload-module state before any upload. -/
def exUploadSt : UploadState :=
  { currentVideoFilename := none, videoSrc := "", previewClasses := [],
    uploadButton := { classes := ["loading"], disabled := true,
                      textContent := "Uploading..." },
    startSecondDisabled := true, endSecondDisabled := true, trimButtonDisabled := true }

/-! ## Spec-modelled backend: Asset Store and Trim Engine

The Flask backend (`app/app.py`, the Asset Store and the Trim Engine of spec
§4.1-§4.2) is not among the repository's source files; only its HTTP callers
are. The definitions below are therefore modelled from the specification's
contracts, faithful to its words. -/

/-- Spec §3: `kind: enum {video, image}`. -/
inductive MediaKind where
  | video
  | image
deriving DecidableEq, Repr

/-- Spec §7: typed failure taxonomy. A `validationError` carries the name of
the violated bound, as §4.2 requires the error to name it. -/
inductive PipelineError where
  | validationError (bound : String)
  | notFoundError
  | unsupportedFormatError
  | processingError
  | storageError
deriving DecidableEq, Repr

/-- Whether a pipeline failure is a `ValidationError`. -/
def PipelineError.isValidation : PipelineError → Bool
  | .validationError _ => true
  | _ => false

/-- Whether a pipeline operation failed with a `ValidationError` (in particular,
it returned no asset). -/
def isValidationFailure {α : Type} : Except PipelineError α → Bool
  | .error err => err.isValidation
  | .ok _ => false

/-- Modelled from the spec: the `Asset` record of §3 (backend data model,
absent from the sources). `id` is the opaque identifier (a `Nat` drawn from a
fresh counter, collision-free by construction), `derived_from` the provenance
back-reference set for trim outputs. -/
structure Asset where
  id : Nat
  kind : MediaKind
  original_name : String
  size_bytes : Nat
  content_type : String
  derived_from : Option Nat
deriving DecidableEq, Repr

/-- An Asset Store entry: the metadata record together with the durably
written bytes (bytes are modelled as `List Nat`). -/
structure StoredAsset where
  asset : Asset
  bytes : List Nat
deriving DecidableEq, Repr

/-- Modelled from the spec: the Asset Store of §4.1 (absent from the sources),
a durable mapping from identifier to bytes plus metadata. `nextId` is the
generator of fresh identifiers. -/
structure AssetStore where
  nextId : Nat
  entries : List StoredAsset
deriving DecidableEq, Repr

/-- Configuration read at process start (spec §6): upload size limit and
accepted content types. -/
structure StoreConfig where
  maxSizeBytes : Nat
  acceptedTypes : List String
deriving DecidableEq, Repr

/-- First stored entry whose asset carries the given identifier. -/
def AssetStore.findIn : List StoredAsset → Nat → Option StoredAsset
  | [], _ => none
  | sa :: rest, i => if sa.asset.id = i then some sa else AssetStore.findIn rest i

/-- Internal lookup of a stored entry by identifier. -/
def AssetStore.find (store : AssetStore) (i : Nat) : Option StoredAsset :=
  AssetStore.findIn store.entries i

/-- Modelled from the spec: Asset Store `put` (§4.1, absent from the sources):
fails with `ValidationError` if the size exceeds the configured maximum or the
content type is not an accepted media type; otherwise writes the bytes durably
under a newly generated id and returns the Asset record together with the
updated store. `derivedFrom` records provenance for trim outputs (§4.2). -/
def AssetStore.put (cfg : StoreConfig) (store : AssetStore) (bytes : List Nat)
    (kind : MediaKind) (originalName contentType : String) (derivedFrom : Option Nat) :
    Except PipelineError (Asset × AssetStore) :=
  if cfg.maxSizeBytes < bytes.length then
    .error (.validationError "size exceeds configured maximum")
  else if contentType ∉ cfg.acceptedTypes then
    .error (.validationError "content_type is not an accepted media type")
  else
    let a : Asset :=
      { id := store.nextId, kind := kind, original_name := originalName,
        size_bytes := bytes.length, content_type := contentType,
        derived_from := derivedFrom }
    .ok (a, { nextId := store.nextId + 1, entries := ⟨a, bytes⟩ :: store.entries })

/-- Modelled from the spec: Asset Store `get` (§4.1, absent from the sources):
returns the asset's bytes, or `NotFoundError` if the id is unknown. -/
def AssetStore.get (store : AssetStore) (i : Nat) : Except PipelineError (List Nat) :=
  match store.find i with
  | some sa => .ok sa.bytes
  | none => .error .notFoundError

/-- Modelled from the spec: Asset Store `exists` (§4.1, absent from the
sources): existence check without reading content. -/
def AssetStore.idKnown (store : AssetStore) (i : Nat) : Bool :=
  (store.find i).isSome

/-- Modelled from the spec: the Trim Engine's `trim` (§4.2, absent from the
sources). `probe` determines the source duration from the container bytes
(`none` for an unparsable container, `UnsupportedFormatError`); `cut` is the
media toolkit's sub-range extraction, an external collaborator passed as a
parameter. Preconditions are checked in the spec's order — source resolves to
a video asset, times numeric, non-negative, `start < end`,
`end <= source_duration` — each violation failing with a `ValidationError`
naming the violated bound; on success the derived asset is written via Asset
Store `put` with `derived_from = source_id`. -/
def TrimEngine.trim (probe : List Nat → Option ℚ) (cut : List Nat → ℚ → ℚ → List Nat)
    (cfg : StoreConfig) (store : AssetStore) (sourceId : Nat)
    (startSeconds endSeconds : JSNum) : Except PipelineError (Asset × AssetStore) :=
  match store.find sourceId with
  | none => .error .notFoundError
  | some sa =>
    if sa.asset.kind ≠ .video then
      .error (.validationError "source is not a video asset")
    else
      match startSeconds, endSeconds with
      | some s, some e =>
        if s < 0 ∨ e < 0 then .error (.validationError "negative")
        else if e ≤ s then .error (.validationError "start >= end")
        else
          match probe sa.bytes with
          | none => .error .unsupportedFormatError
          | some dur =>
            if dur < e then .error (.validationError "end beyond duration")
            else
              AssetStore.put cfg store (cut sa.bytes s e) .video
                sa.asset.original_name sa.asset.content_type (some sourceId)
      | _, _ => .error (.validationError "non-numeric")

/-! Sample backend values for witnesses. -/

/-- A sample store configuration. -/
def exCfg : StoreConfig := { maxSizeBytes := 1000, acceptedTypes := ["video/mp4"] }

/-- The empty Asset Store. -/
def exStore0 : AssetStore := { nextId := 0, entries := [] }

/-- The asset produced by putting `[1, 2, 3]` into the empty store. -/
def exAsset0 : Asset :=
  { id := 0, kind := .video, original_name := "a.mp4", size_bytes := 3,
    content_type := "video/mp4", derived_from := none }

/-- The store after that put. -/
def exStore1 : AssetStore := { nextId := 1, entries := [⟨exAsset0, [1, 2, 3]⟩] }

/-- A probe that reports a 10-second duration for any payload. -/
def exProbe : List Nat → Option ℚ := fun _ => some 10

/-- A cut that returns the source bytes unchanged. -/
def exCut : List Nat → ℚ → ℚ → List Nat := fun b _ _ => b

/-! ## tab_navigation.js

The DOM is a list of elements in document order; an element carries its `id`
attribute (`""` when unset), its class list, and its `data-target` attribute.
`querySelectorAll('.nav-tab')` / `('.tab-content')` select, in document order,
the elements carrying the respective class. -/

/-- A DOM element, reduced to the attributes the tab navigation reads. -/
structure Element where
  id : String
  classes : List String
  dataTarget : Option String
deriving DecidableEq, Repr

/-- `classList.contains`. -/
def Element.hasClass (e : Element) (c : String) : Bool :=
  decide (c ∈ e.classes)

/-- Membership in `querySelectorAll('.nav-tab')`. -/
def Element.isNavTab (e : Element) : Bool :=
  e.hasClass "nav-tab"

/-- Membership in `querySelectorAll('.tab-content')`. -/
def Element.isTabContent (e : Element) : Bool :=
  e.hasClass "tab-content"

/-- Whether the element currently has the `active` class. -/
def Element.isActive (e : Element) : Bool :=
  e.hasClass "active"

/-- `classList.add` on an element. -/
def Element.addClass (e : Element) (c : String) : Element :=
  { e with classes := classAdd e.classes c }

/-- `classList.remove` on an element. -/
def Element.removeClass (e : Element) (c : String) : Element :=
  { e with classes := classRemove e.classes c }

/-- The per-element effect of the click handler's first two `forEach` loops
(tab_navigation.js lines 13-14): every nav-tab and every tab-content loses the
`active` class; other elements are untouched. -/
def clearOne (e : Element) : Element :=
  if e.isNavTab || e.isTabContent then e.removeClass "active" else e

/-- The two `forEach(... classList.remove('active'))` loops over the whole
document. -/
def clearActiveAll (doc : List Element) : List Element :=
  doc.map clearOne

/-- Apply `f` to the element at position `n`, leaving the rest unchanged. -/
def modifyAt (f : Element → Element) : List Element → Nat → List Element
  | [], _ => []
  | e :: rest, 0 => f e :: rest
  | e :: rest, n + 1 => e :: modifyAt f rest n

/-- Position of the first element whose `id` equals `i` (document order). -/
def findIdxById : List Element → String → Option Nat
  | [], _ => none
  | e :: rest, i => if e.id = i then some 0 else (findIdxById rest i).map (· + 1)

/-- `document.getElementById`, as a position in the document list;
`getElementById("")` finds nothing. -/
def getElementByIdIdx (doc : List Element) (i : String) : Option Nat :=
  if i = "" then none else findIdxById doc i

/-- `tab.getAttribute('data-target')` for the clicked tab at position `k`,
with JavaScript's coercion of a missing attribute (`null`) to the string
`"null"` when passed to `getElementById`. -/
def targetIdOf (doc : List Element) (k : Nat) : String :=
  match doc[k]? with
  | some e => e.dataTarget.getD "null"
  | none => "null"

/-- The tab click handler (tab_navigation.js lines 11-25) for a click on the
nav-tab at position `k`: remove `active` from every nav-tab and tab-content,
add `active` to the clicked tab, then look up the clicked tab's `data-target`
by id in the updated document and, if an element is found, add `active` to
it. -/
def clickTab (doc : List Element) (k : Nat) : List Element :=
  let doc1 := modifyAt (fun e => e.addClass "active") (clearActiveAll doc) k
  match getElementByIdIdx doc1 (targetIdOf doc k) with
  | some j => modifyAt (fun e => e.addClass "active") doc1 j
  | none => doc1

/-- A three-element document used as a witness: two nav-tabs (the second one
targeting a missing id) and one tab-content. -/
def exDocW : List Element :=
  [ { id := "", classes := ["nav-tab", "active"], dataTarget := some "upload-tab" },
    { id := "", classes := ["nav-tab"], dataTarget := some "missing" },
    { id := "upload-tab", classes := ["tab-content", "active"], dataTarget := none } ]

/-- The second nav-tab of `exDocW`, as it is before a click on it. -/
def exTabW : Element :=
  { id := "", classes := ["nav-tab"], dataTarget := some "missing" }

/-- The second nav-tab of `exDocW`, as it is after a click on it. -/
def exTabWActive : Element :=
  { id := "", classes := ["nav-tab", "active"], dataTarget := some "missing" }

/-- A two-tab document whose second nav-tab's `id` equals the first tab's
`data-target`. -/
def exDocTabs : List Element :=
  [ { id := "a", classes := ["nav-tab"], dataTarget := some "b" },
    { id := "b", classes := ["nav-tab"], dataTarget := some "a" } ]

/-- A well-formed document: two nav-tabs and two tab-contents. -/
def exDoc : List Element :=
  [ { id := "", classes := ["nav-tab", "active"], dataTarget := some "upload-tab" },
    { id := "", classes := ["nav-tab"], dataTarget := some "edit-tab" },
    { id := "upload-tab", classes := ["tab-content", "active"], dataTarget := none },
    { id := "edit-tab", classes := ["tab-content"], dataTarget := none } ]

/-! ## Helper lemmas -/

/-- Every early-return (`blocked`) branch of the click handler carries the
state unchanged. -/
theorem trimClick_blocked_eq {st : TrimState} {s e : JSNum} {m : String}
    {st' : TrimState} (h : trimClick st s e = .blocked m st') : st' = st := by
  unfold trimClick at h
  split at h
  · cases h; rfl
  · split at h
    · cases h; rfl
    · split at h
      · split at h
        · cases h; rfl
        · split at h
          · cases h; rfl
          · cases h
      · cases h; rfl

/-- The state from which the fetch is issued is the loading state. -/
theorem trimClick_fetch_eq {st : TrimState} {s e : JSNum} {p : TrimRequest}
    {st' : TrimState} (h : trimClick st s e = .fetch p st') :
    st' = trimSetLoading st := by
  unfold trimClick at h
  split at h
  · cases h
  · split at h
    · cases h
    · split at h
      · split at h
        · cases h
        · split at h
          · cases h
          · cases h; rfl
      · cases h

/-- A fetched trim payload names the current video filename. -/
theorem trimClick_fetch_filename {st : TrimState} {fn : String} {s e : JSNum}
    {p : TrimRequest} {st' : TrimState} (hf : st.currentVideoFilename = some fn)
    (h : trimClick st s e = .fetch p st') : p.filename = fn := by
  unfold trimClick at h
  split at h
  · cases h
  · rename_i fn' heq
    rw [hf] at heq
    injection heq with heq'
    subst heq'
    split at h
    · cases h
    · split at h
      · split at h
        · cases h
        · split at h
          · cases h
          · cases h; rfl
      · cases h

/-- Setting the loading state touches only the button. -/
theorem trimSetLoading_currentVideoFilename (st : TrimState) :
    (trimSetLoading st).currentVideoFilename = st.currentVideoFilename := rfl

/-- On every non-success outcome, the trim settlement leaves
`currentVideoFilename` unchanged. -/
theorem trimSettle_failure_current {o : FetchOutcome} (st : TrimState)
    (h : isFetchSuccess o = false) :
    (trimSettle st o).currentVideoFilename = st.currentVideoFilename := by
  cases o with
  | ok succ f m =>
    cases succ with
    | false => simp [trimSettle, trimFinally]
    | true =>
      cases f with
      | none => simp [trimSettle, trimFinally]
      | some fn =>
        have hfn : fn = "" := by simpa [isFetchSuccess] using h
        subst hfn
        simp [trimSettle, trimFinally]
  | httpError m => simp [trimSettle, trimFinally]
  | networkError => simp [trimSettle, trimFinally]

/-- On every non-success outcome, the upload settlement leaves
`currentVideoFilename` unchanged. -/
theorem uploadSettle_failure_current {o : FetchOutcome} (ust : UploadState)
    (h : isFetchSuccess o = false) :
    (uploadSettle ust o).currentVideoFilename = ust.currentVideoFilename := by
  cases o with
  | ok succ f m =>
    cases succ with
    | false => simp [uploadSettle, uploadFinally]
    | true =>
      cases f with
      | none => simp [uploadSettle, uploadFinally]
      | some fn =>
        have hfn : fn = "" := by simpa [isFetchSuccess] using h
        subst hfn
        simp [uploadSettle, uploadFinally]
  | httpError m => simp [uploadSettle, uploadFinally]
  | networkError => simp [uploadSettle, uploadFinally]

/-! ### DOM lemmas for the tab navigation -/

/-- `modifyAt` preserves positions other than the modified one. -/
theorem modifyAt_getElem? (f : Element → Element) (l : List Element) (k j : Nat) :
    (modifyAt f l k)[j]? = if j = k then l[j]?.map f else l[j]? := by
  induction l generalizing k j with
  | nil => simp [modifyAt]
  | cons e rest ih =>
    cases k with
    | zero =>
      cases j with
      | zero => simp [modifyAt]
      | succ m => simp [modifyAt]
    | succ n =>
      cases j with
      | zero => simp [modifyAt]
      | succ m => simp [modifyAt, ih]

/-- Pointwise description of the class-clearing pass. -/
theorem clearActiveAll_getElem? (l : List Element) (j : Nat) :
    (clearActiveAll l)[j]? = l[j]?.map clearOne := by
  simp [clearActiveAll]

/-- `classList.add` leaves the `id` attribute alone. -/
theorem addClass_id (e : Element) (c : String) : (e.addClass c).id = e.id := by
  unfold Element.addClass classAdd
  split <;> rfl

/-- `classList.remove` leaves the `id` attribute alone. -/
theorem removeClass_id (e : Element) (c : String) : (e.removeClass c).id = e.id := rfl

/-- The clearing pass leaves the `id` attribute alone. -/
theorem clearOne_id (e : Element) : (clearOne e).id = e.id := by
  unfold clearOne
  split
  · exact removeClass_id e "active"
  · rfl

/-- After `classList.add c`, the element has class `c`. -/
theorem hasClass_addClass_self (e : Element) (c : String) :
    (e.addClass c).hasClass c = true := by
  unfold Element.addClass Element.hasClass classAdd
  split
  · rename_i h
    exact decide_eq_true h
  · simp

/-- `classList.add c` does not affect membership of other classes. -/
theorem hasClass_addClass_ne (e : Element) {c c' : String} (h : c' ≠ c) :
    (e.addClass c).hasClass c' = e.hasClass c' := by
  unfold Element.addClass Element.hasClass classAdd
  split
  · rfl
  · exact decide_eq_decide.mpr (by simp [h])

/-- After `classList.remove c`, the element no longer has class `c`. -/
theorem hasClass_removeClass_self (e : Element) (c : String) :
    (e.removeClass c).hasClass c = false := by
  unfold Element.removeClass Element.hasClass classRemove
  simp [List.mem_filter]

/-- `classList.remove c` does not affect membership of other classes. -/
theorem hasClass_removeClass_ne (e : Element) {c c' : String} (h : c' ≠ c) :
    (e.removeClass c).hasClass c' = e.hasClass c' := by
  unfold Element.removeClass Element.hasClass classRemove
  exact decide_eq_decide.mpr (by simp [List.mem_filter, h])

/-- Adding `active` makes an element active. -/
theorem isActive_addActive (e : Element) : (e.addClass "active").isActive = true :=
  hasClass_addClass_self e "active"

/-- Adding `active` does not change nav-tab membership. -/
theorem isNavTab_addActive (e : Element) :
    (e.addClass "active").isNavTab = e.isNavTab :=
  hasClass_addClass_ne e (by decide)

/-- Adding `active` does not change tab-content membership. -/
theorem isTabContent_addActive (e : Element) :
    (e.addClass "active").isTabContent = e.isTabContent :=
  hasClass_addClass_ne e (by decide)

/-- The clearing pass does not change nav-tab membership. -/
theorem clearOne_isNavTab (e : Element) : (clearOne e).isNavTab = e.isNavTab := by
  unfold clearOne
  split
  · exact hasClass_removeClass_ne e (by decide)
  · rfl

/-- The clearing pass does not change tab-content membership. -/
theorem clearOne_isTabContent (e : Element) :
    (clearOne e).isTabContent = e.isTabContent := by
  unfold clearOne
  split
  · exact hasClass_removeClass_ne e (by decide)
  · rfl

/-- The clearing pass deactivates every nav-tab and tab-content. -/
theorem clearOne_isActive (e : Element)
    (h : (e.isNavTab || e.isTabContent) = true) : (clearOne e).isActive = false := by
  unfold clearOne
  rw [if_pos h]
  exact hasClass_removeClass_self e "active"

/-- Element ids are untouched by `modifyAt` with `classList.add`, so id lookup
commutes with it. -/
theorem findIdxById_modifyAt_addActive (l : List Element) (k : Nat) (t : String) :
    findIdxById (modifyAt (fun e => e.addClass "active") l k) t = findIdxById l t := by
  induction l generalizing k with
  | nil => rfl
  | cons e rest ih =>
    cases k with
    | zero => simp [modifyAt, findIdxById, addClass_id]
    | succ n => simp [modifyAt, findIdxById, ih]

/-- Element ids are untouched by the clearing pass, so id lookup commutes
with it. -/
theorem findIdxById_clearActiveAll (l : List Element) (t : String) :
    findIdxById (clearActiveAll l) t = findIdxById l t := by
  induction l with
  | nil => rfl
  | cons e rest ih =>
    simp [clearActiveAll, findIdxById, clearOne_id] at ih ⊢
    rw [ih]

/-- A successful id lookup returns a position holding an element with that
id. -/
theorem findIdxById_some {l : List Element} {t : String} {j : Nat}
    (h : findIdxById l t = some j) : ∃ e, l[j]? = some e ∧ e.id = t := by
  induction l generalizing j with
  | nil => cases h
  | cons e rest ih =>
    simp only [findIdxById] at h
    by_cases he : e.id = t
    · rw [if_pos he] at h
      injection h with h'
      subst h'
      exact ⟨e, by simp, he⟩
    · rw [if_neg he] at h
      cases hr : findIdxById rest t with
      | none => rw [hr] at h; cases h
      | some m =>
        rw [hr] at h
        injection h with h'
        subst h'
        obtain ⟨e', he1, he2⟩ := ih hr
        exact ⟨e', by simpa using he1, he2⟩

/-! ## Claim theorems -/

/-- C1, counterexample: a trim attempt with parsed start `-2` and parsed end
`-3` has `start >= end`, yet the click handler alerts
`Please enter valid positive numbers for start and end times.` — the negative
check at video_trimming.js line 52 fires before the ordering check at line 57 —
not the claimed `Start time must be less than end time.`. -/
theorem trimClick_start_ge_end_message_cex :
    ((-3 : ℚ) ≤ (-2 : ℚ)) ∧
    trimClick exTrimSt (some (-2)) (some (-3)) =
      .blocked "Please enter valid positive numbers for start and end times." exTrimSt ∧
    ("Please enter valid positive numbers for start and end times." ≠
      "Start time must be less than end time.") := by
  decide

/-- C1 (amended): for every trim click with a video in the workspace and
parsed numeric times with `start >= end`, the handler fails with a validation
alert and returns with the state unchanged and no `/trim_video` request issued
(the `blocked` outcome); the alert is `Start time must be less than end time.`
whenever both times are non-negative, and otherwise it is the
negative/non-numeric validation alert. -/
theorem trimClick_start_ge_end_validation (st : TrimState) (fn : String) (s e : ℚ)
    (hf : st.currentVideoFilename = some fn) (hfn : fn ≠ "") (hge : e ≤ s) :
    (trimClick st (some s) (some e) =
        .blocked "Please enter valid positive numbers for start and end times." st ∨
      trimClick st (some s) (some e) =
        .blocked "Start time must be less than end time." st) ∧
    (0 ≤ s → 0 ≤ e →
      trimClick st (some s) (some e) =
        .blocked "Start time must be less than end time." st) := by
  constructor
  · by_cases hneg : s < 0 ∨ e < 0
    · left
      simp [trimClick, hf, hfn, hneg]
    · right
      simp [trimClick, hf, hfn, hneg, hge]
  · intro hs he
    have hneg : ¬(s < 0 ∨ e < 0) := by
      push_neg
      exact ⟨hs, he⟩
    simp [trimClick, hf, hfn, hneg, hge]

/-- Witness for C1's amended theorem at start `6`, end `4`. -/
theorem trimClick_start_ge_end_validation_w :
    trimClick exTrimSt (some 6) (some 4) =
      .blocked "Start time must be less than end time." exTrimSt :=
  (trimClick_start_ge_end_validation exTrimSt "v.mp4" 6 4 rfl (by decide)
    (by decide)).2 (by decide) (by decide)

/-- C2: on a `/trim_video` response with `success:true` and a (truthy)
`trimmed_filename`, the handler stores the trimmed filename as the current
video and points the preview at `/get_video/<trimmed_filename>`; consequently
any later trim request issued from the resulting state carries the derived
asset's filename as its source. -/
theorem trimSettle_success_updates_current (st : TrimState) (fn : String)
    (msg : Option String) (hfn : fn ≠ "") :
    (trimSettle st (.ok true (some fn) msg)).currentVideoFilename = some fn ∧
    (trimSettle st (.ok true (some fn) msg)).videoSrc = "/get_video/" ++ fn ∧
    ∀ s e payload st',
      trimClick (trimSettle st (.ok true (some fn) msg)) s e = .fetch payload st' →
      payload.filename = fn := by
  have h1 : (trimSettle st (.ok true (some fn) msg)).currentVideoFilename = some fn := by
    simp [trimSettle, trimFinally, hfn]
  refine ⟨h1, by simp [trimSettle, trimFinally, hfn], ?_⟩
  intro s e payload st' h
  exact trimClick_fetch_filename h1 h

/-- Witness for C2 at a concrete state and filename. -/
theorem trimSettle_success_updates_current_w :
    (trimSettle exTrimSt (.ok true (some "t.mp4") none)).currentVideoFilename
        = some "t.mp4" ∧
    (trimSettle exTrimSt (.ok true (some "t.mp4") none)).videoSrc
        = "/get_video/" ++ "t.mp4" :=
  ⟨(trimSettle_success_updates_current exTrimSt "t.mp4" none (by decide)).1,
    (trimSettle_success_updates_current exTrimSt "t.mp4" none (by decide)).2.1⟩

/-- C3: `currentVideoFilename` is mutated only by a successful response: for
every settled outcome that is not a success (non-ok response, network error,
`success:false`, missing or empty filename field), a whole trim operation —
click handler included — and an upload settlement leave the pointer exactly
as it was. -/
theorem operation_failure_preserves_current (o : FetchOutcome) (st : TrimState)
    (ust : UploadState) (s e : JSNum) (h : isFetchSuccess o = false) :
    (trimOperation st s e o).currentVideoFilename = st.currentVideoFilename ∧
    (uploadSettle ust o).currentVideoFilename = ust.currentVideoFilename := by
  refine ⟨?_, uploadSettle_failure_current ust h⟩
  unfold trimOperation
  cases hc : trimClick st s e with
  | blocked m st' =>
    rw [trimClick_blocked_eq hc]
  | fetch p st' =>
    rw [trimSettle_failure_current st' h, trimClick_fetch_eq hc]
    exact trimSetLoading_currentVideoFilename st

/-- Witness for C3 at a network error. -/
theorem operation_failure_preserves_current_w :
    (trimOperation exTrimSt (some 1) (some 2) .networkError).currentVideoFilename
        = exTrimSt.currentVideoFilename ∧
    (uploadSettle exUploadSt .networkError).currentVideoFilename
        = exUploadSt.currentVideoFilename :=
  operation_failure_preserves_current .networkError exTrimSt exUploadSt
    (some 1) (some 2) rfl

/-- C4 (spec-modelled): for every trim request whose end time exceeds the
probed duration of the resolved source video, the Trim Engine fails with a
`ValidationError` — whichever precondition fires first is still a
`ValidationError` — and, the result being an error, no derived asset is
produced. -/
theorem trim_end_beyond_duration_validation (probe : List Nat → Option ℚ)
    (cut : List Nat → ℚ → ℚ → List Nat) (cfg : StoreConfig) (store : AssetStore)
    (sourceId : Nat) (s : JSNum) (ev dur : ℚ) (sa : StoredAsset)
    (hfind : store.find sourceId = some sa)
    (hprobe : probe sa.bytes = some dur) (hdur : dur < ev) :
    isValidationFailure
      (TrimEngine.trim probe cut cfg store sourceId s (some ev)) = true := by
  unfold TrimEngine.trim
  rw [hfind]
  split
  · rename_i heq
    cases heq
  · rename_i sa' heq
    injection heq with heq'
    subst heq'
    by_cases hk : sa.asset.kind = MediaKind.video
    · rw [if_neg (by simp [hk])]
      cases s with
      | none => rfl
      | some sv =>
        by_cases hneg : sv < 0 ∨ ev < 0
        · simp [hneg, isValidationFailure, PipelineError.isValidation]
        · by_cases hord : ev ≤ sv
          · simp [hneg, hord, isValidationFailure, PipelineError.isValidation]
          · simp [hneg, hord, hprobe, hdur, isValidationFailure,
              PipelineError.isValidation]
    · rw [if_pos (by simp [hk])]
      rfl

/-- Witness for C4: trimming the sample 10-second asset to `[2, 15]`. -/
theorem trim_end_beyond_duration_validation_w :
    isValidationFailure
      (TrimEngine.trim exProbe exCut exCfg exStore1 0 (some 2) (some 15)) = true :=
  trim_end_beyond_duration_validation exProbe exCut exCfg exStore1 0 (some 2)
    15 10 ⟨exAsset0, [1, 2, 3]⟩ rfl rfl (by decide)

/-- C5: for every trim click with a video in the workspace where a parsed time
is non-numeric (`NaN`) or negative, the handler fails with the validation
alert naming the violated bounds
(`Please enter valid positive numbers for start and end times.`), returns the
state unchanged, and issues no `/trim_video` request. -/
theorem trimClick_invalid_number_validation (st : TrimState) (fn : String)
    (s e : JSNum) (hf : st.currentVideoFilename = some fn) (hfn : fn ≠ "")
    (hbad : s = none ∨ e = none ∨ (∃ a, s = some a ∧ a < 0) ∨
      (∃ b, e = some b ∧ b < 0)) :
    trimClick st s e =
      .blocked "Please enter valid positive numbers for start and end times." st := by
  rcases hbad with rfl | rfl | ⟨a, rfl, ha⟩ | ⟨b, rfl, hb⟩
  · cases e <;> simp [trimClick, hf, hfn]
  · cases s <;> simp [trimClick, hf, hfn]
  · cases e with
    | none => simp [trimClick, hf, hfn]
    | some b => simp [trimClick, hf, hfn, ha]
  · cases s with
    | none => simp [trimClick, hf, hfn]
    | some a => simp [trimClick, hf, hfn, hb]

/-- Witness for C5 at a non-numeric start time. -/
theorem trimClick_invalid_number_validation_w :
    trimClick exTrimSt none (some 5) =
      .blocked "Please enter valid positive numbers for start and end times."
        exTrimSt :=
  trimClick_invalid_number_validation exTrimSt "v.mp4" none (some 5) rfl
    (by decide) (Or.inl rfl)

/-- C6: on an `/upload_video` response with `success:true` and a (truthy)
`filename`, the upload handler stores the filename as the current video,
points the preview at `/get_video/<filename>`, and — through its call to
`initializeVideoTrimming` with that filename — enables the two trim inputs and
the trim button. -/
theorem uploadSettle_success_enables_trimming (st : UploadState) (fn : String)
    (msg : Option String) (hfn : fn ≠ "") :
    (uploadSettle st (.ok true (some fn) msg)).currentVideoFilename = some fn ∧
    (uploadSettle st (.ok true (some fn) msg)).videoSrc = "/get_video/" ++ fn ∧
    (uploadSettle st (.ok true (some fn) msg)).startSecondDisabled = false ∧
    (uploadSettle st (.ok true (some fn) msg)).endSecondDisabled = false ∧
    (uploadSettle st (.ok true (some fn) msg)).trimButtonDisabled = false := by
  simp [uploadSettle, uploadFinally, initializeVideoTrimmingCtrls, jsTruthyStr, hfn]

/-- Witness for C6 at a concrete state and filename. -/
theorem uploadSettle_success_enables_trimming_w :
    (uploadSettle exUploadSt (.ok true (some "u.mp4") none)).currentVideoFilename
        = some "u.mp4" ∧
    (uploadSettle exUploadSt (.ok true (some "u.mp4") none)).videoSrc
        = "/get_video/" ++ "u.mp4" ∧
    (uploadSettle exUploadSt (.ok true (some "u.mp4") none)).startSecondDisabled
        = false ∧
    (uploadSettle exUploadSt (.ok true (some "u.mp4") none)).endSecondDisabled
        = false ∧
    (uploadSettle exUploadSt (.ok true (some "u.mp4") none)).trimButtonDisabled
        = false :=
  uploadSettle_success_enables_trimming exUploadSt "u.mp4" none (by decide)

/-- C7 (spec-modelled): round-trip fidelity of the Asset Store — whenever
`put` succeeds on a byte payload, `get` on the returned asset's id yields
exactly that payload. -/
theorem put_get_roundtrip (cfg : StoreConfig) (store : AssetStore)
    (bytes : List Nat) (kind : MediaKind) (originalName contentType : String)
    (derivedFrom : Option Nat) (a : Asset) (store' : AssetStore)
    (h : AssetStore.put cfg store bytes kind originalName contentType derivedFrom
      = .ok (a, store')) :
    AssetStore.get store' a.id = .ok bytes := by
  unfold AssetStore.put at h
  split at h
  · cases h
  · split at h
    · cases h
    · injection h with h'
      injection h' with ha hs
      subst ha
      subst hs
      simp [AssetStore.get, AssetStore.find, AssetStore.findIn]

/-- Witness for C7: putting `[1, 2, 3]` into the empty store and reading it
back. -/
theorem put_get_roundtrip_w :
    AssetStore.get exStore1 exAsset0.id = .ok [1, 2, 3] :=
  put_get_roundtrip exCfg exStore0 [1, 2, 3] .video "a.mp4" "video/mp4" none
    exAsset0 exStore1 (by rfl)

/-- C8: a trim-button click while no video filename is set alerts
`Please upload a video first.` and returns before any validation or fetch: the
outcome is `blocked` (no `/trim_video` request) and carries the state — current
filename, preview source, button state — unchanged. -/
theorem trimClick_no_filename_guard (st : TrimState) (s e : JSNum)
    (h : st.currentVideoFilename = none) :
    trimClick st s e = .blocked "Please upload a video first." st := by
  unfold trimClick
  rw [h]

/-- Witness for C8 at the pre-upload state. -/
theorem trimClick_no_filename_guard_w :
    trimClick exTrimStNoFile none none =
      .blocked "Please upload a video first." exTrimStNoFile :=
  trimClick_no_filename_guard exTrimStNoFile none none rfl

/-- C10: once a trim or upload fetch chain settles — on success and on every
failure path alike — the `.finally` block leaves the triggering button with
the `loading` class removed, re-enabled, and its label reset to `Trim Video`
(trim) or `Upload Video` (upload). -/
theorem settle_resets_button (st : TrimState) (ust : UploadState)
    (o : FetchOutcome) :
    ("loading" ∉ (trimSettle st o).trimButton.classes ∧
      (trimSettle st o).trimButton.disabled = false ∧
      (trimSettle st o).trimButton.textContent = "Trim Video") ∧
    ("loading" ∉ (uploadSettle ust o).uploadButton.classes ∧
      (uploadSettle ust o).uploadButton.disabled = false ∧
      (uploadSettle ust o).uploadButton.textContent = "Upload Video") := by
  simp [trimSettle, trimFinally, uploadSettle, uploadFinally, classRemove,
    List.mem_filter]

/-- C9, counterexample: in `exDocTabs` the clicked nav-tab's `data-target`
equals the other nav-tab's `id`, so the `getElementById` step re-activates a
second nav-tab: after clicking the nav-tab at position 0, the nav-tabs at
positions 0 and 1 both carry the `active` class — not exactly one. -/
theorem clickTab_two_active_tabs_cex :
    (exDocTabs[0]?.map Element.isNavTab = some true) ∧
    ((clickTab exDocTabs 0)[0]?.map (fun e => (e.isNavTab, e.isActive))
        = some (true, true)) ∧
    ((clickTab exDocTabs 0)[1]?.map (fun e => (e.isNavTab, e.isActive))
        = some (true, true)) := by
  decide

/-- C9 (amended): after a click on the nav-tab at position `k` — provided the
clicked element is not itself a tab-content, and any nav-tab located by the
`getElementById(data-target)` lookup is the clicked tab itself — a nav-tab
carries `active` exactly when it is the clicked one, and a tab-content carries
`active` only if its id equals the clicked tab's `data-target` (hence zero
active contents when no element has that id). -/
theorem clickTab_active_invariant (doc : List Element) (k : Nat) (tab : Element)
    (hk : doc[k]? = some tab) (htab : tab.isNavTab = true)
    (hnc : tab.isTabContent = false)
    (hguard : ∀ j e, getElementByIdIdx doc (targetIdOf doc k) = some j →
      doc[j]? = some e → e.isNavTab = true → j = k) :
    (∀ (j : Nat) (e : Element), (clickTab doc k)[j]? = some e → e.isNavTab = true →
      (e.isActive = true ↔ j = k)) ∧
    (∀ (j : Nat) (e : Element), (clickTab doc k)[j]? = some e → e.isTabContent = true →
      e.isActive = true → e.id = targetIdOf doc k) := by
  have hclick : clickTab doc k =
      match getElementByIdIdx
          (modifyAt (fun e => e.addClass "active") (clearActiveAll doc) k)
          (targetIdOf doc k) with
      | some j => modifyAt (fun e => e.addClass "active")
          (modifyAt (fun e => e.addClass "active") (clearActiveAll doc) k) j
      | none => modifyAt (fun e => e.addClass "active") (clearActiveAll doc) k := rfl
  have hA : ∀ j : Nat,
      (modifyAt (fun e => e.addClass "active") (clearActiveAll doc) k)[j]? =
        if j = k then some ((clearOne tab).addClass "active")
        else doc[j]?.map clearOne := by
    intro j
    rw [modifyAt_getElem?, clearActiveAll_getElem?]
    by_cases hjk : j = k
    · subst hjk
      simp [hk]
    · simp [hjk]
  have hB : getElementByIdIdx
      (modifyAt (fun e => e.addClass "active") (clearActiveAll doc) k)
      (targetIdOf doc k) = getElementByIdIdx doc (targetIdOf doc k) := by
    by_cases hT : targetIdOf doc k = ""
    · simp [getElementByIdIdx, hT]
    · simp only [getElementByIdIdx, if_neg hT]
      rw [findIdxById_modifyAt_addActive]
      exact findIdxById_clearActiveAll doc _
  cases hfound : getElementByIdIdx
      (modifyAt (fun e => e.addClass "active") (clearActiveAll doc) k)
      (targetIdOf doc k) with
  | none =>
    have hdoc' : clickTab doc k =
        modifyAt (fun e => e.addClass "active") (clearActiveAll doc) k := by
      rw [hclick, hfound]
    constructor
    · intro j e hje hnav
      rw [hdoc', hA j] at hje
      by_cases hjk : j = k
      · subst hjk
        rw [if_pos rfl] at hje
        injection hje with he
        subst he
        simp [isActive_addActive]
      · rw [if_neg hjk] at hje
        cases hd : doc[j]? with
        | none => rw [hd] at hje; cases hje
        | some e0 =>
          rw [hd] at hje
          injection hje with he
          subst he
          rw [clearOne_isNavTab] at hnav
          have hact0 : (clearOne e0).isActive = false :=
            clearOne_isActive e0 (by simp [hnav])
          simp [hact0, hjk]
    · intro j e hje hcont hact
      rw [hdoc', hA j] at hje
      by_cases hjk : j = k
      · subst hjk
        rw [if_pos rfl] at hje
        injection hje with he
        subst he
        rw [isTabContent_addActive, clearOne_isTabContent, hnc] at hcont
        cases hcont
      · rw [if_neg hjk] at hje
        cases hd : doc[j]? with
        | none => rw [hd] at hje; cases hje
        | some e0 =>
          rw [hd] at hje
          injection hje with he
          subst he
          rw [clearOne_isTabContent] at hcont
          have hact0 : (clearOne e0).isActive = false :=
            clearOne_isActive e0 (by simp [hcont])
          rw [hact0] at hact
          cases hact
  | some jt =>
    have hdoc' : clickTab doc k =
        modifyAt (fun e => e.addClass "active")
          (modifyAt (fun e => e.addClass "active") (clearActiveAll doc) k) jt := by
      rw [hclick, hfound]
    have hBk : getElementByIdIdx doc (targetIdOf doc k) = some jt := by
      rw [← hB]
      exact hfound
    have hT : targetIdOf doc k ≠ "" := by
      intro h0
      unfold getElementByIdIdx at hBk
      rw [if_pos h0] at hBk
      cases hBk
    have hfj : findIdxById doc (targetIdOf doc k) = some jt := by
      unfold getElementByIdIdx at hBk
      rw [if_neg hT] at hBk
      exact hBk
    obtain ⟨etar, hetar, hid⟩ := findIdxById_some hfj
    have hguard' : etar.isNavTab = true → jt = k := fun hn =>
      hguard jt etar hBk hetar hn
    have hD : ∀ j : Nat, (clickTab doc k)[j]? =
        if j = jt then
          (if j = k then some ((clearOne tab).addClass "active")
            else doc[j]?.map clearOne).map (fun e => e.addClass "active")
        else if j = k then some ((clearOne tab).addClass "active")
        else doc[j]?.map clearOne := by
      intro j
      rw [hdoc', modifyAt_getElem?, hA j]
    constructor
    · intro j e hje hnav
      rw [hD j] at hje
      by_cases hjt : j = jt
      · rw [if_pos hjt] at hje
        by_cases hjk : j = k
        · rw [if_pos hjk] at hje
          simp only [Option.map_some'] at hje
          injection hje with he
          subst he
          simp [isActive_addActive, hjk]
        · rw [if_neg hjk] at hje
          subst hjt
          rw [hetar] at hje
          simp only [Option.map_some'] at hje
          injection hje with he
          subst he
          rw [isNavTab_addActive, clearOne_isNavTab] at hnav
          exact absurd (hguard' hnav) hjk
      · rw [if_neg hjt] at hje
        by_cases hjk : j = k
        · rw [if_pos hjk] at hje
          injection hje with he
          subst he
          simp [isActive_addActive, hjk]
        · rw [if_neg hjk] at hje
          cases hd : doc[j]? with
          | none => rw [hd] at hje; cases hje
          | some e0 =>
            rw [hd] at hje
            simp only [Option.map_some'] at hje
            injection hje with he
            subst he
            rw [clearOne_isNavTab] at hnav
            have hact0 : (clearOne e0).isActive = false :=
              clearOne_isActive e0 (by simp [hnav])
            simp [hact0, hjk]
    · intro j e hje hcont hact
      rw [hD j] at hje
      by_cases hjt : j = jt
      · rw [if_pos hjt] at hje
        by_cases hjk : j = k
        · rw [if_pos hjk] at hje
          simp only [Option.map_some'] at hje
          injection hje with he
          subst he
          rw [isTabContent_addActive, isTabContent_addActive,
            clearOne_isTabContent, hnc] at hcont
          cases hcont
        · rw [if_neg hjk] at hje
          subst hjt
          rw [hetar] at hje
          simp only [Option.map_some'] at hje
          injection hje with he
          subst he
          rw [addClass_id, clearOne_id]
          exact hid
      · rw [if_neg hjt] at hje
        by_cases hjk : j = k
        · rw [if_pos hjk] at hje
          injection hje with he
          subst he
          rw [isTabContent_addActive, clearOne_isTabContent, hnc] at hcont
          cases hcont
        · rw [if_neg hjk] at hje
          cases hd : doc[j]? with
          | none => rw [hd] at hje; cases hje
          | some e0 =>
            rw [hd] at hje
            simp only [Option.map_some'] at hje
            injection hje with he
            subst he
            rw [clearOne_isTabContent] at hcont
            have hact0 : (clearOne e0).isActive = false :=
              clearOne_isActive e0 (by simp [hcont])
            rw [hact0] at hact
            cases hact

/-- Witness for C9's amended theorem: clicking the second nav-tab of `exDocW`
(whose target id matches no element) leaves that tab active. -/
theorem clickTab_active_invariant_w :
    exTabWActive.isActive = true ↔ (1 : Nat) = 1 :=
  (clickTab_active_invariant exDocW 1 exTabW (by decide) (by decide) (by decide)
      (fun j e hj _ _ => Option.noConfusion hj)).1 1 exTabWActive
    (by decide) (by decide)

end Clipia
